import Mathlib

/-!
Shallow embedding of the agent action pipeline of the Tether-intelligence
repository: the Action Descriptor data model, the risk classifier and
countdown of the safety modal component, the coordinate denormalization
helper of the model-collaborator hook, and the task-submission /
action-processing / execution / emergency-stop logic of the dashboard
component.  Remote-session side effects (mouse, keyboard, disconnect calls)
are recorded as an explicit command trace; the activity stream is the list
of appended entries in order (the wall-clock ids and timestamps of the
source only serve to order entries, which the list position captures).
-/

/-- A JavaScript value as it occurs in action argument records. -/
inductive JSValue where
  | num (n : Int)
  | str (s : String)
  | bool (b : Bool)
  | undefined
deriving DecidableEq

/-- JSON.stringify of one value (the fragment used by action args). -/
def JSValue.stringify : JSValue → String
  | .num n => toString n
  | .str s => "\"" ++ s ++ "\""
  | .bool b => if b then "true" else "false"
  | .undefined => "null"

/-- Template-literal conversion of a value to text, as in backquoted
JavaScript strings. -/
def JSValue.display : JSValue → String
  | .num n => toString n
  | .str s => s
  | .bool b => if b then "true" else "false"
  | .undefined => "undefined"

/-- JSON.stringify of an argument record; keys holding undefined are
omitted, as JSON.stringify does. -/
def jsonStringifyArgs (args : List (String × JSValue)) : String :=
  "\x7b" ++ String.intercalate ","
    ((args.filter (fun kv => match kv.2 with | .undefined => false | _ => true)).map
      (fun kv => "\"" ++ kv.1 ++ "\":" ++ kv.2.stringify)) ++ "\x7d"

/-- The model-supplied decision category of types.ts. -/
inductive Decision where
  | allowed
  | require_confirmation
  | blocked
deriving DecidableEq

/-- SafetyDecision of types.ts. -/
structure SafetyDecision where
  explanation : String
  decision : Decision
deriving DecidableEq

/-- ComputerAction of types.ts: the Action Descriptor. -/
structure ComputerAction where
  name : String
  args : List (String × JSValue)
  safetyDecision : Option SafetyDecision := none
deriving DecidableEq

/-- Property access action.args.k: undefined when the key is absent. -/
def argVal (a : ComputerAction) (k : String) : JSValue :=
  match a.args.find? (fun kv => kv.1 == k) with
  | some kv => kv.2
  | none => .undefined

/-- The decision of the optional chain action.safetyDecision?.decision. -/
def decisionOf (a : ComputerAction) : Option Decision :=
  a.safetyDecision.map SafetyDecision.decision

/-- The entry kinds of the AIAction stream of types.ts. -/
inductive StreamType where
  | observation
  | reasoning
  | action
  | safety_check
  | error
deriving DecidableEq

/-- One activity-stream entry (AIAction of types.ts); the Date.now-based
id and timestamp are elided, entry order being the list order. -/
structure AIAction where
  type : StreamType
  content : String
  args : Option (List (String × JSValue)) := none
deriving DecidableEq

/-- One primitive call on the remote-session collaborator (useVNC). -/
inductive VNCCommand where
  | mouse (x y : JSValue) (buttonMask : Nat)
  | key (keysym : Nat) (pressed : Bool)
  | disconnect
deriving DecidableEq

/-- Task status of types.ts. -/
inductive TaskStatus where
  | pending
  | in_progress
  | completed
  | failed
  | cancelled
deriving DecidableEq

/-- AgentTask of types.ts, restricted to the fields the pipeline writes. -/
structure AgentTask where
  id : Nat
  description : String
  status : TaskStatus
deriving DecidableEq

/-- AgentSession status of types.ts. -/
inductive SessionStatus where
  | idle
  | thinking
  | acting
  | error
  | stopped
deriving DecidableEq

/-- SafetyModal data of types.ts, without its two callbacks: the
onApprove and onDeny closures built in processAction are the functions
resolveApprove and resolveDeny below, determined by the held action. -/
structure ModalState where
  action : ComputerAction
  screenshot : Option String := none
  reasoning : String
  timeout : Int
deriving DecidableEq

/-- UISession of types.ts, restricted to the fields the pipeline touches,
extended by the remote-session command trace and the count of Executor
invocations (ghost trace fields recording the side effects). -/
structure UISessionState where
  currentSession : Option SessionStatus := none
  taskQueue : List AgentTask := []
  actionStream : List AIAction := []
  safetyModal : Option ModalState := none
  commands : List VNCCommand := []
  execCount : Nat := 0
deriving DecidableEq

/-- getActionReasoning of the dashboard component. -/
def getActionReasoning (a : ComputerAction) : String :=
  match a.name with
  | "click_at" =>
      "I need to click at position (" ++ (argVal a "x").display ++ ", " ++
        (argVal a "y").display ++ ") to interact with the UI element"
  | "type_text_at" =>
      "I need to type \"" ++ (argVal a "text").display ++
        "\" into the input field at position (" ++ (argVal a "x").display ++
        ", " ++ (argVal a "y").display ++ ")"
  | "navigate" =>
      "I need to navigate to " ++ (argVal a "url").display ++
        " to continue the task"
  | "key_combination" =>
      "I need to press " ++ (argVal a "keys").display ++
        " to perform the required action"
  | "scroll_at" =>
      "I need to scroll " ++ (argVal a "direction").display ++
        " to find the target element"
  | "scroll_document" =>
      "I need to scroll " ++ (argVal a "direction").display ++
        " to find the target element"
  | n => "Executing " ++ n ++ " action"

/-- The remote-session calls the switch of executeAction makes for one
action, in order.  Names outside the switch (and navigate / scroll cases,
whose bodies are empty) make no call. -/
def vncCalls (a : ComputerAction) : List VNCCommand :=
  match a.name with
  | "click_at" => [.mouse (argVal a "x") (argVal a "y") 1]
  | "hover_at" => [.mouse (argVal a "x") (argVal a "y") 0]
  | "type_text_at" =>
      [.mouse (argVal a "x") (argVal a "y") 1, .key 0 false]
  | "key_combination" =>
      if ((argVal a "keys").display).toLower == "enter"
      then [.key 13 true, .key 13 false] else []
  | _ => []

/-- executeAction of the dashboard component, as the pair of appended
stream entries and emitted remote-session commands.  transportFails models
the remote-session collaborator throwing on its first call; the throw is
caught by the surrounding catch, which appends an error entry (the thrown
message suffix of the source string is elided) and ends the function
normally: no failure propagates to the caller. -/
def executeAction (transportFails : Bool) (a : ComputerAction) :
    List AIAction × List VNCCommand :=
  if transportFails && !(vncCalls a).isEmpty then
    ([⟨.reasoning, getActionReasoning a, none⟩,
      ⟨.error, "Failed to execute " ++ a.name, none⟩], [])
  else
    ([⟨.reasoning, getActionReasoning a, none⟩], vncCalls a)

/-- One Executor invocation applied to the session state: its stream
entries and commands are appended and the invocation is counted. -/
def applyExec (transportFails : Bool) (a : ComputerAction)
    (s : UISessionState) : UISessionState :=
  { s with
    actionStream := s.actionStream ++ (executeAction transportFails a).1,
    commands := s.commands ++ (executeAction transportFails a).2,
    execCount := s.execCount + 1 }

/-- The modal record processAction builds for a confirmation request. -/
def mkModal (a : ComputerAction) (screenshot : Option String) : ModalState :=
  { action := a,
    screenshot := screenshot,
    reasoning := (match a.safetyDecision with
      | some sd => sd.explanation
      | none => ""),
    timeout := 30 }

/-- The error entry appended by the onDeny closure of processAction. -/
def deniedEntry (a : ComputerAction) : AIAction :=
  ⟨.error, "Action denied by user: " ++ a.name, none⟩

/-- The onApprove closure of processAction, applied to the session state
holding the modal: execute the held action, then clear the modal. -/
def resolveApprove (transportFails : Bool) (s : UISessionState) :
    UISessionState :=
  match s.safetyModal with
  | none => s
  | some m => { applyExec transportFails m.action s with safetyModal := none }

/-- The onDeny closure of processAction: append the user-denial error
entry, then clear the modal. -/
def resolveDeny (s : UISessionState) : UISessionState :=
  match s.safetyModal with
  | none => s
  | some m =>
      { s with
        actionStream := s.actionStream ++ [deniedEntry m.action],
        safetyModal := none }

/-- processAction of the dashboard component: append the stream entry
(safety_check exactly when the decision is require_confirmation), then
either install the safety modal and return, or execute directly. -/
def processAction (transportFails : Bool) (screenshot : Option String)
    (a : ComputerAction) (s : UISessionState) : UISessionState :=
  let s1 := { s with
    actionStream := s.actionStream ++
      [⟨(if decisionOf a = some .require_confirmation then .safety_check
         else .action), "Executing: " ++ a.name, some a.args⟩] }
  if decisionOf a = some .require_confirmation then
    { s1 with safetyModal := some (mkModal a screenshot) }
  else
    applyExec transportFails a s1

/-- The per-action loop of handleTaskSubmit over the model response. -/
def runActions (transportFails : Bool) (screenshot : Option String)
    (actions : List ComputerAction) (s : UISessionState) : UISessionState :=
  actions.foldl (fun st a => processAction transportFails screenshot a st) s

/-- The taskQueue.map of handleTaskSubmit setting one task status. -/
def setTaskStatus (id : Nat) (st : TaskStatus) (q : List AgentTask) :
    List AgentTask :=
  q.map (fun t => if t.id = id then { t with status := st } else t)

/-- The error entry appended when no session is active. -/
def noSessionEntry : AIAction :=
  ⟨.error, "No active session. Please start a session first.", none⟩

/-- The observation entry announcing a received task. -/
def receivedEntry (desc : String) : AIAction :=
  ⟨.observation, "Received task: \"" ++ desc ++ "\"", none⟩

/-- handleTaskSubmit of the dashboard component.  The model collaborator
response (gemini.sendRequest) is an Except: error means the await threw.
With no active session only an error entry is appended.  Otherwise the
task is enqueued in_progress; on a response error the catch appends the
failure entry and marks the task failed; on a returned action list each
action is processed in order and the task is then marked completed. -/
def handleTaskSubmit (id : Nat) (desc : String)
    (response : Except String (List ComputerAction))
    (transportFails : Bool) (screenshot : Option String)
    (s : UISessionState) : UISessionState :=
  match s.currentSession with
  | none => { s with actionStream := s.actionStream ++ [noSessionEntry] }
  | some _ =>
    let s1 := { s with
      taskQueue := s.taskQueue ++ [⟨id, desc, .in_progress⟩],
      actionStream := s.actionStream ++ [receivedEntry desc] }
    match response with
    | .error e =>
        { s1 with
          actionStream := s1.actionStream ++
            [⟨.error, "Task failed: " ++ e, none⟩],
          taskQueue := setTaskStatus id .failed s1.taskQueue }
    | .ok actions =>
        let s2 := runActions transportFails screenshot actions s1
        { s2 with taskQueue := setTaskStatus id .completed s2.taskQueue }

/-- The emergency error entry of emergencyStop. -/
def emergencyEntry : AIAction :=
  ⟨.error, "Emergency stop activated by user", none⟩

/-- emergencyStop of the dashboard component: disconnect the remote
session, set the current session status to stopped, clear the safety
modal slot, and append the emergency entry.  The task queue is not
touched and neither modal callback runs. -/
def emergencyStop (s : UISessionState) : UISessionState :=
  { s with
    commands := s.commands ++ [VNCCommand.disconnect],
    currentSession := s.currentSession.map (fun _ => SessionStatus.stopped),
    safetyModal := none,
    actionStream := s.actionStream ++ [emergencyEntry] }

/-- The combined state of a mounted SafetyModal component (its timeLeft
counter) and the session holding it. -/
structure GateState where
  timeLeft : Int
  session : UISessionState
deriving DecidableEq

/-- Mounting the SafetyModal: its timeLeft state initializes to the
timeout prop of the held modal record. -/
def mountModal (s : UISessionState) : GateState :=
  ⟨(match s.safetyModal with | some m => m.timeout | none => 0), s⟩

/-- One elapsed second of the countdown effect of SafetyModal: with the
modal unmounted nothing runs; with timeLeft at most 0 the effect returned
without scheduling the interval; with timeLeft at most 1 the interval
tick calls onDeny (auto-deny) and pins timeLeft at 0; otherwise timeLeft
decrements. -/
def gateSecond (g : GateState) : GateState :=
  match g.session.safetyModal with
  | none => g
  | some _ =>
    if g.timeLeft ≤ 0 then g
    else if g.timeLeft ≤ 1 then ⟨0, resolveDeny g.session⟩
    else ⟨g.timeLeft - 1, g.session⟩

/-- The Deny button of SafetyModal: invokes the same onDeny callback the
auto-deny tick invokes. -/
def clickDeny (g : GateState) : GateState :=
  ⟨g.timeLeft, resolveDeny g.session⟩

/-- The Approve button of SafetyModal: invokes the onApprove callback. -/
def clickApprove (transportFails : Bool) (g : GateState) : GateState :=
  ⟨g.timeLeft, resolveApprove transportFails g.session⟩

/-- The severity tiers of getRiskLevel. -/
inductive RiskLevel where
  | low
  | medium
  | high
deriving DecidableEq

/-- The fixed high-risk keyword list of getRiskLevel in SafetyModal. -/
def highRiskActions : List String :=
  ["delete", "remove", "format", "wipe", "shutdown", "restart",
   "payment", "transfer", "send", "delete_file", "delete_folder"]

/-- JavaScript String.prototype.includes: substring containment. -/
def jsIncludes (s pat : String) : Bool :=
  decide (pat.toList <:+: s.toList)

/-- The lower-cased pairing of action name and stringified args built by
getRiskLevel. -/
def actionStr (a : ComputerAction) : String :=
  (a.name ++ " " ++ jsonStringifyArgs a.args).toLower

/-- getRiskLevel of SafetyModal: high exactly when some keyword occurs in
the lower-cased name-and-args string, else medium. -/
def getRiskLevel (a : ComputerAction) : RiskLevel :=
  if highRiskActions.any (fun risk => jsIncludes (actionStr a) risk)
  then .high else .medium

/-- JavaScript Math.round for the values arising here: floor of the
argument plus one half (halves round toward positive infinity). -/
def jsRound (q : ℚ) : ℤ := ⌊q + 1 / 2⌋

/-- denormalizeCoordinates of the useGemini hook: normalized 0 to 999
coordinates scaled to the surface and rounded. -/
def denormalizeCoordinates (x y screenWidth screenHeight : ℚ) : ℤ × ℤ :=
  (jsRound (x / 1000 * screenWidth), jsRound (y / 1000 * screenHeight))

/-- A concrete descriptor the model collaborator marked blocked. -/
def actBlocked : ComputerAction :=
  ⟨"click_at", [("x", .num 100), ("y", .num 200)],
   some ⟨"dangerous click", .blocked⟩⟩

/-- A concrete descriptor requiring confirmation. -/
def actConfirm : ComputerAction :=
  ⟨"navigate", [("url", .str "http://example.com")],
   some ⟨"needs approval", .require_confirmation⟩⟩

/-- A second concrete descriptor requiring confirmation. -/
def actConfirm2 : ComputerAction :=
  ⟨"click_at", [("x", .num 1), ("y", .num 2)],
   some ⟨"second request", .require_confirmation⟩⟩

/-- A concrete descriptor marked allowed. -/
def actAllowed : ComputerAction :=
  ⟨"click_at", [("x", .num 5), ("y", .num 6)], some ⟨"safe", .allowed⟩⟩

/-- A fresh session state with an active session. -/
def sActive : UISessionState := { currentSession := some .idle }

/-- A state with a task in progress and an approval request pending. -/
def sPending : UISessionState :=
  processAction false none actConfirm
    { sActive with taskQueue := [⟨3, "demo", .in_progress⟩] }

/-- A modal record carrying a zero timeout. -/
def modalZero : ModalState := { mkModal actConfirm none with timeout := 0 }

/-- A state whose pending request has a zero timeout. -/
def sZeroTimeout : UISessionState :=
  { sActive with safetyModal := some modalZero }

theorem runActions_cons (tf : Bool) (sc : Option String) (a : ComputerAction)
    (rest : List ComputerAction) (s : UISessionState) :
    runActions tf sc (a :: rest) s =
      runActions tf sc rest (processAction tf sc a s) := rfl

theorem processAction_of_confirmation (tf : Bool) (sc : Option String)
    (a : ComputerAction) (s : UISessionState)
    (h : decisionOf a = some .require_confirmation) :
    processAction tf sc a s =
      { s with
        actionStream := s.actionStream ++
          [⟨.safety_check, "Executing: " ++ a.name, some a.args⟩],
        safetyModal := some (mkModal a sc) } := by
  simp [processAction, h]

theorem processAction_taskQueue (tf : Bool) (sc : Option String)
    (a : ComputerAction) (s : UISessionState) :
    (processAction tf sc a s).taskQueue = s.taskQueue := by
  by_cases h : decisionOf a = some .require_confirmation <;>
    simp [processAction, h, applyExec]

theorem runActions_taskQueue (tf : Bool) (sc : Option String)
    (acts : List ComputerAction) :
    ∀ s : UISessionState, (runActions tf sc acts s).taskQueue = s.taskQueue := by
  induction acts with
  | nil => intro s; rfl
  | cons a rest ih =>
      intro s
      rw [runActions_cons, ih, processAction_taskQueue]

theorem setTaskStatus_fresh (id : Nat) (st : TaskStatus) (q : List AgentTask)
    (h : ∀ t ∈ q, t.id ≠ id) : setTaskStatus id st q = q := by
  induction q with
  | nil => rfl
  | cons t rest ih =>
      have ht : t.id ≠ id := h t (by simp)
      have hr : ∀ u ∈ rest, u.id ≠ id := fun u hu => h u (by simp [hu])
      have hrest := ih hr
      simp only [setTaskStatus] at hrest
      rw [setTaskStatus, List.map_cons, if_neg ht, hrest]

theorem gateSecond_iterate_pending (m : ModalState) (s : UISessionState)
    (hm : s.safetyModal = some m) (T : ℤ) :
    ∀ n : ℕ, (n : ℤ) < T → gateSecond^[n] ⟨T, s⟩ = ⟨T - n, s⟩ := by
  intro n
  induction n with
  | zero => intro _; simp
  | succ k ih =>
      intro h
      have hk : (k : ℤ) < T := by push_cast at h ⊢; omega
      rw [Function.iterate_succ_apply', ih hk]
      have h1 : ¬ (T - (k : ℤ) ≤ 0) := by push_cast at h; omega
      have h2 : ¬ (T - (k : ℤ) ≤ 1) := by push_cast at h; omega
      simp [gateSecond, hm, h1, h2]
      omega

theorem runActions_nil (tf : Bool) (sc : Option String) (s : UISessionState) :
    runActions tf sc [] s = s := rfl

/-- C1: the claim that a descriptor with decision blocked never reaches the
Executor is violated by the code: processAction tests only for
require_confirmation, so a blocked click_at descriptor is handed to
executeAction and a remote-session mouse command is emitted for it. -/
theorem blocked_decision_descriptor_is_executed :
    (processAction false none actBlocked sActive).commands =
      [VNCCommand.mouse (.num 100) (.num 200) 1] ∧
    (processAction false none actBlocked sActive).execCount = 1 := by
  decide

/-- C2 counterexample: processing a require_confirmation descriptor
followed by an allowed descriptor leaves the first request pending and
unresolved while the second descriptor's remote-session command has
already been emitted: the batch is not suspended on the gate. -/
theorem second_action_executes_before_gate_resolves :
    (runActions false none [actConfirm, actAllowed] sActive).safetyModal =
      some (mkModal actConfirm none) ∧
    (runActions false none [actConfirm, actAllowed] sActive).commands =
      [VNCCommand.mouse (.num 5) (.num 6) 1] ∧
    (runActions false none [actConfirm, actAllowed] sActive).execCount = 1 := by
  decide

/-- C2 amended: for a require_confirmation descriptor followed by one not
requiring confirmation, the Task Runner opens the Approval Gate and
continues immediately: the second descriptor is executed while the first
request is still pending; the first descriptor itself is executed only if
later approved. -/
theorem batch_continues_past_open_gate (tf : Bool) (sc : Option String)
    (d1 d2 : ComputerAction) (s : UISessionState)
    (h1 : decisionOf d1 = some .require_confirmation)
    (h2 : decisionOf d2 ≠ some .require_confirmation) :
    (runActions tf sc [d1, d2] s).safetyModal = some (mkModal d1 sc) ∧
    (runActions tf sc [d1, d2] s).commands =
      s.commands ++ (executeAction tf d2).2 ∧
    (runActions tf sc [d1, d2] s).execCount = s.execCount + 1 := by
  rw [runActions_cons, processAction_of_confirmation tf sc d1 s h1]
  simp [runActions, processAction, h2, applyExec]

theorem batch_continues_past_open_gate_witness :
    decisionOf actConfirm = some .require_confirmation ∧
    decisionOf actAllowed ≠ some .require_confirmation ∧
    (runActions false none [actConfirm, actAllowed] sActive).safetyModal =
      some (mkModal actConfirm none) :=
  ⟨by decide, by decide,
   (batch_continues_past_open_gate false none actConfirm actAllowed sActive
      (by decide) (by decide)).1⟩

/-- C3 counterexample: with a task in progress and an approval request
pending, emergencyStop leaves the task status in_progress, not cancelled,
and appends no user-denial entry: the pending gate is dropped, not
force-resolved as denied. -/
theorem emergency_stop_leaves_task_in_progress :
    (emergencyStop sPending).taskQueue =
      [⟨3, "demo", TaskStatus.in_progress⟩] ∧
    (emergencyStop sPending).safetyModal = none ∧
    deniedEntry actConfirm ∉ (emergencyStop sPending).actionStream := by
  decide

/-- C3 amended: an emergency stop disconnects the remote session, sets the
session status to stopped, clears the pending approval request without
resolving it (no deny callback runs and no denial entry is appended),
appends the emergency entry, and leaves every task status unchanged. -/
theorem emergency_stop_effects (s : UISessionState) :
    (emergencyStop s).taskQueue = s.taskQueue ∧
    (emergencyStop s).safetyModal = none ∧
    (emergencyStop s).actionStream = s.actionStream ++ [emergencyEntry] ∧
    (emergencyStop s).commands = s.commands ++ [VNCCommand.disconnect] ∧
    (emergencyStop s).execCount = s.execCount ∧
    (emergencyStop s).currentSession =
      s.currentSession.map (fun _ => SessionStatus.stopped) := by
  simp [emergencyStop]

/-- C4 counterexample: a transport failure while executing an allowed
click_at appends the executor error entry, yet the task is still marked
completed, not failed: the failure never reaches the Task Runner. -/
theorem transport_error_task_still_completed :
    (handleTaskSubmit 7 "t" (.ok [actAllowed]) true none sActive).taskQueue =
      [⟨7, "t", TaskStatus.completed⟩] ∧
    (⟨.error, "Failed to execute click_at", none⟩ : AIAction) ∈
      (handleTaskSubmit 7 "t" (.ok [actAllowed]) true none
        sActive).actionStream := by
  decide

/-- C4 amended: on a transport error the Executor appends an error entry
and emits no command, but swallows the failure and returns normally, so
the Task Runner marks the task completed for every returned action list;
only a model-collaborator failure marks a task failed. -/
theorem transport_error_logged_and_swallowed (a : ComputerAction)
    (id : Nat) (d : String) (acts : List ComputerAction) (sc : Option String)
    (s : UISessionState) (st : SessionStatus)
    (hcall : vncCalls a ≠ [])
    (hsess : s.currentSession = some st) :
    (executeAction true a).1 =
      [⟨.reasoning, getActionReasoning a, none⟩,
       ⟨.error, "Failed to execute " ++ a.name, none⟩] ∧
    (executeAction true a).2 = [] ∧
    (handleTaskSubmit id d (.ok acts) true sc s).taskQueue =
      setTaskStatus id .completed
        (s.taskQueue ++ [⟨id, d, .in_progress⟩]) := by
  have hne : (vncCalls a).isEmpty = false := by
    cases hv : vncCalls a with
    | nil => exact absurd hv hcall
    | cons b l => rfl
  refine ⟨?_, ?_, ?_⟩
  · simp [executeAction, hne]
  · simp [executeAction, hne]
  · simp [handleTaskSubmit, hsess, runActions_taskQueue]

theorem transport_error_logged_and_swallowed_witness :
    vncCalls actAllowed ≠ [] ∧
    sActive.currentSession = some SessionStatus.idle ∧
    (handleTaskSubmit 7 "t" (.ok [actAllowed]) true none sActive).taskQueue =
      setTaskStatus 7 .completed
        (sActive.taskQueue ++ [⟨7, "t", TaskStatus.in_progress⟩]) :=
  ⟨by decide, rfl,
   (transport_error_logged_and_swallowed actAllowed 7 "t" [actAllowed] none
      sActive .idle (by decide) rfl).2.2⟩

/-- C5 counterexample: a second require_confirmation descriptor processed
while a request is pending does not fail: it replaces the pending request,
whose descriptor is dropped with no denial entry and no execution. -/
theorem second_gate_open_replaces_pending_request :
    (runActions false none [actConfirm, actConfirm2] sActive).safetyModal =
      some (mkModal actConfirm2 none) ∧
    deniedEntry actConfirm ∉
      (runActions false none [actConfirm, actConfirm2] sActive).actionStream ∧
    (runActions false none [actConfirm, actConfirm2] sActive).execCount
      = 0 := by
  decide

/-- C5 amended: pending requests live in a single optional modal slot, so
at most one is pending at any instant; but opening a request while one is
pending replaces it instead of failing, and the replaced request resolves
neither way: no denial entry is appended and the Executor is not invoked
for it. -/
theorem gate_open_replaces_without_resolution (tf : Bool) (sc : Option String)
    (d1 d2 : ComputerAction) (s : UISessionState)
    (h1 : decisionOf d1 = some .require_confirmation)
    (h2 : decisionOf d2 = some .require_confirmation) :
    (runActions tf sc [d1, d2] s).safetyModal = some (mkModal d2 sc) ∧
    (runActions tf sc [d1, d2] s).execCount = s.execCount ∧
    (deniedEntry d1 ∉ s.actionStream →
      deniedEntry d1 ∉ (runActions tf sc [d1, d2] s).actionStream) := by
  rw [runActions_cons, processAction_of_confirmation tf sc d1 s h1,
    runActions_cons, runActions_nil, processAction_of_confirmation _ _ _ _ h2]
  refine ⟨rfl, rfl, ?_⟩
  intro h hmem
  rcases List.mem_append.mp hmem with hmem1 | hmem2
  · rcases List.mem_append.mp hmem1 with hs | hfirst
    · exact h hs
    · simp [deniedEntry] at hfirst
  · simp [deniedEntry] at hmem2

theorem gate_open_replaces_without_resolution_witness :
    decisionOf actConfirm = some .require_confirmation ∧
    decisionOf actConfirm2 = some .require_confirmation ∧
    (runActions false none [actConfirm, actConfirm2] sActive).safetyModal =
      some (mkModal actConfirm2 none) :=
  ⟨by decide, by decide,
   (gate_open_replaces_without_resolution false none actConfirm actConfirm2
      sActive (by decide) (by decide)).1⟩

/-- C6: a gate opened by processAction (timeout 30) with no user decision
is still pending with nothing appended after each of the first 29 elapsed
seconds; at the 30th second the countdown auto-denies, yielding exactly
the session an explicit Deny click yields (same transition, same denial
log entry), differing only in what triggered it. -/
theorem approval_countdown_thirty_seconds_autodeny (tf : Bool)
    (sc : Option String) (a : ComputerAction) (s : UISessionState)
    (h : decisionOf a = some .require_confirmation) :
    (∀ n : ℕ, n ≤ 29 →
      (gateSecond^[n] (mountModal (processAction tf sc a s))).session.safetyModal
        = some (mkModal a sc) ∧
      (gateSecond^[n] (mountModal (processAction tf sc a s))).session.actionStream
        = (processAction tf sc a s).actionStream) ∧
    (gateSecond^[30] (mountModal (processAction tf sc a s))).session =
      resolveDeny (processAction tf sc a s) ∧
    (gateSecond^[30] (mountModal (processAction tf sc a s))).session =
      (clickDeny (mountModal (processAction tf sc a s))).session ∧
    (gateSecond^[30] (mountModal (processAction tf sc a s))).session.actionStream
      = (processAction tf sc a s).actionStream ++ [deniedEntry a] := by
  have hm : (processAction tf sc a s).safetyModal = some (mkModal a sc) := by
    rw [processAction_of_confirmation tf sc a s h]
  have hmount : mountModal (processAction tf sc a s) =
      ⟨30, processAction tf sc a s⟩ := by
    simp [mountModal, hm, mkModal]
  have hiter : ∀ n : ℕ, (n : ℤ) < 30 →
      gateSecond^[n] (⟨30, processAction tf sc a s⟩ : GateState) =
        ⟨30 - n, processAction tf sc a s⟩ :=
    gateSecond_iterate_pending _ _ hm 30
  have h29 : gateSecond^[29] (⟨30, processAction tf sc a s⟩ : GateState) =
      ⟨1, processAction tf sc a s⟩ := by
    rw [hiter 29 (by norm_num)]
    norm_num
  have h30 : gateSecond^[30] (⟨30, processAction tf sc a s⟩ : GateState) =
      ⟨0, resolveDeny (processAction tf sc a s)⟩ := by
    have h3029 : (30 : ℕ) = 29 + 1 := rfl
    rw [h3029, Function.iterate_succ_apply', h29]
    simp [gateSecond, hm]
  have hdeny : resolveDeny (processAction tf sc a s) =
      { processAction tf sc a s with
        actionStream :=
          (processAction tf sc a s).actionStream ++ [deniedEntry a],
        safetyModal := none } := by
    simp [resolveDeny, hm, mkModal]
  refine ⟨?_, ?_, ?_, ?_⟩
  · intro n hn
    rw [hmount, hiter n (by omega)]
    exact ⟨hm, rfl⟩
  · rw [hmount, h30]
  · rw [hmount, h30]
    rfl
  · rw [hmount, h30, hdeny]

theorem approval_countdown_thirty_seconds_autodeny_witness :
    decisionOf actConfirm = some .require_confirmation ∧
    (gateSecond^[30] (mountModal (processAction false none actConfirm
      sActive))).session =
      (clickDeny (mountModal (processAction false none actConfirm
        sActive))).session :=
  ⟨by decide,
   (approval_countdown_thirty_seconds_autodeny false none actConfirm sActive
      (by decide)).2.2.1⟩

/-- C7: getRiskLevel is a pure function of the descriptor: high exactly
when some member of its fixed keyword list (which includes delete, format,
shutdown, transfer and payment) occurs as a substring of the lower-cased
concatenation of the action name and the JSON serialization of its
arguments, and medium otherwise; and command emission and Executor
invocation depend only on the model-supplied decision flag, never on the
risk level. -/
theorem risk_classifier_keyword_scan_display_only :
    (∀ a : ComputerAction, getRiskLevel a = .high ↔
      ∃ k ∈ highRiskActions, k.toList <:+: (actionStr a).toList) ∧
    (∀ a : ComputerAction,
      getRiskLevel a = .high ∨ getRiskLevel a = .medium) ∧
    ("delete" ∈ highRiskActions ∧ "format" ∈ highRiskActions ∧
     "shutdown" ∈ highRiskActions ∧ "transfer" ∈ highRiskActions ∧
     "payment" ∈ highRiskActions) ∧
    (∀ (tf : Bool) (sc : Option String) (a : ComputerAction)
       (s : UISessionState),
      (processAction tf sc a s).commands = s.commands ++
        (if decisionOf a = some .require_confirmation then []
         else (executeAction tf a).2) ∧
      (processAction tf sc a s).execCount = s.execCount +
        (if decisionOf a = some .require_confirmation then 0 else 1)) := by
  refine ⟨?_, ?_, ?_, ?_⟩
  · intro a
    have hchar : getRiskLevel a = .high ↔
        (highRiskActions.any fun risk => jsIncludes (actionStr a) risk)
          = true := by
      unfold getRiskLevel
      by_cases hc :
        (highRiskActions.any fun risk => jsIncludes (actionStr a) risk) = true
      · simp [hc]
      · simp [hc]
    rw [hchar, List.any_eq_true]
    simp [jsIncludes]
  · intro a
    unfold getRiskLevel
    by_cases hc :
      (highRiskActions.any fun risk => jsIncludes (actionStr a) risk) = true
    · left; simp [hc]
    · right; simp [hc]
  · decide
  · intro tf sc a s
    by_cases h : decisionOf a = some .require_confirmation <;>
      simp [processAction, h, applyExec]

/-- C8: denormalizeCoordinates returns exactly the rounding of the
normalized coordinate divided by 1000 and scaled by the surface dimension,
and maps (500, 500) on a 1440 by 900 surface to (720, 450). -/
theorem denormalize_round_formula (x y sw sh : ℚ)
    (hx0 : 0 ≤ x) (hx1 : x ≤ 999) (hy0 : 0 ≤ y) (hy1 : y ≤ 999) :
    denormalizeCoordinates x y sw sh =
      (round (x / 1000 * sw), round (y / 1000 * sh)) ∧
    denormalizeCoordinates 500 500 1440 900 = (720, 450) := by
  constructor
  · simp [denormalizeCoordinates, jsRound, round_eq]
  · simp only [denormalizeCoordinates, jsRound, Prod.mk.injEq]
    constructor <;> rw [Int.floor_eq_iff] <;> norm_num

theorem denormalize_round_formula_witness :
    (0 ≤ (500 : ℚ)) ∧ ((500 : ℚ) ≤ 999) ∧
    denormalizeCoordinates 500 500 1440 900 = (720, 450) :=
  ⟨by norm_num, by norm_num,
   (denormalize_round_formula 500 500 1440 900 (by norm_num) (by norm_num)
      (by norm_num) (by norm_num)).2⟩

/-- C9: with an active session and an empty model response, the submitted
task is appended and immediately marked completed, with zero Executor
invocations and no remote-session command emitted. -/
theorem empty_response_completes_without_execution (id : Nat) (desc : String)
    (tf : Bool) (sc : Option String) (s : UISessionState) (st : SessionStatus)
    (hsess : s.currentSession = some st)
    (hfresh : ∀ t ∈ s.taskQueue, t.id ≠ id) :
    (handleTaskSubmit id desc (.ok []) tf sc s).taskQueue =
      s.taskQueue ++ [⟨id, desc, .completed⟩] ∧
    (handleTaskSubmit id desc (.ok []) tf sc s).execCount = s.execCount ∧
    (handleTaskSubmit id desc (.ok []) tf sc s).commands = s.commands := by
  refine ⟨?_, ?_, ?_⟩
  · have hq : (handleTaskSubmit id desc (.ok []) tf sc s).taskQueue =
        setTaskStatus id .completed
          (s.taskQueue ++ [⟨id, desc, .in_progress⟩]) := by
      simp [handleTaskSubmit, hsess, runActions_nil]
    have hsplit : setTaskStatus id TaskStatus.completed
        (s.taskQueue ++ [⟨id, desc, .in_progress⟩]) =
        setTaskStatus id .completed s.taskQueue ++
          setTaskStatus id .completed [⟨id, desc, .in_progress⟩] := by
      simp [setTaskStatus]
    rw [hq, hsplit, setTaskStatus_fresh id .completed s.taskQueue hfresh]
    simp [setTaskStatus]
  · simp [handleTaskSubmit, hsess, runActions_nil]
  · simp [handleTaskSubmit, hsess, runActions_nil]

theorem empty_response_completes_without_execution_witness :
    sActive.currentSession = some SessionStatus.idle ∧
    (handleTaskSubmit 7 "t" (.ok []) false none sActive).taskQueue =
      sActive.taskQueue ++ [⟨7, "t", TaskStatus.completed⟩] :=
  ⟨rfl, (empty_response_completes_without_execution 7 "t" false none sActive
      .idle rfl (by decide)).1⟩

/-- C10: a SafetyModal mounted over a request with nonpositive timeout
schedules no countdown: any number of elapsed seconds leaves the gate
state unchanged, the request still pending with no auto-deny fired; the
explicit Deny and Approve buttons still resolve it. -/
theorem nonpositive_timeout_stays_pending (t : ℤ) (m : ModalState)
    (s : UISessionState) (tf : Bool)
    (ht : t ≤ 0) (hm : s.safetyModal = some m) (hto : m.timeout = t) :
    (∀ n : ℕ, gateSecond^[n] (mountModal s) = mountModal s) ∧
    (mountModal s).session.safetyModal = some m ∧
    (clickDeny (mountModal s)).session.safetyModal = none ∧
    (clickDeny (mountModal s)).session.actionStream =
      s.actionStream ++ [deniedEntry m.action] ∧
    (clickApprove tf (mountModal s)).session.safetyModal = none := by
  have hmount : mountModal s = ⟨t, s⟩ := by simp [mountModal, hm, hto]
  have hfix : gateSecond (⟨t, s⟩ : GateState) = ⟨t, s⟩ := by
    simp [gateSecond, hm, ht]
  refine ⟨?_, ?_, ?_, ?_, ?_⟩
  · intro n
    rw [hmount]
    exact Function.iterate_fixed hfix n
  · rw [hmount]
    exact hm
  · rw [hmount]
    simp [clickDeny, resolveDeny, hm]
  · rw [hmount]
    simp [clickDeny, resolveDeny, hm]
  · rw [hmount]
    simp [clickApprove, resolveApprove, hm]

theorem nonpositive_timeout_stays_pending_witness :
    ((0 : ℤ) ≤ 0) ∧ sZeroTimeout.safetyModal = some modalZero ∧
    gateSecond^[5] (mountModal sZeroTimeout) = mountModal sZeroTimeout :=
  ⟨le_refl 0, rfl,
   (nonpositive_timeout_stays_pending 0 modalZero sZeroTimeout false
      (le_refl 0) rfl rfl).1 5⟩
